import Mathlib

/-!
# Verification of the theme/typography bootstrap of `src/utils/typography.js`

The module under verification patches the DeYoung theme's style-override
table, constructs a typography engine from the patched theme, conditionally
performs a style-injection side effect depending on the runtime environment
flag, and exports `rhythm`, `scale` and the engine itself.

The external `typography` library (constructor, `rhythm`, `scale`,
`injectStyles`) and the external theme definition are not part of this
repository; their behaviour is modelled from the specification, as noted on
each such definition.  The override patch table, the environment guard and
the export wiring are translated directly from `src/utils/typography.js`.
Numbers are modelled as rationals (px-equivalent units).
-/

/-- CSS style declarations for one selector: property name ↦ value. -/
abbrev StyleDecls := List (String × String)

/-- A selector-keyed style-override table. -/
abbrev OverrideTable := List (String × StyleDecls)

/-- Look up the declarations attached to a selector in an override table
(first entry with that key wins, matching JS object-key semantics where keys
are unique). -/
def lookupSelector (tbl : OverrideTable) (sel : String) : Option StyleDecls :=
  (tbl.find? (fun e => e.1 == sel)).map (fun e => e.2)

/-- Modelled from the spec: a base `ThemeConfig` record — typographic base
values (each `Option` so that a missing required value is representable) plus
the selector-keyed override table.  The concrete theme definition
(`typography-theme-de-young`) is an external input, so configurations stay
abstract. -/
structure ThemeConfig where
  baseFontSize : Option ℚ
  baseLineHeight : Option ℚ
  scaleRatio : Option ℚ
  overrides : OverrideTable
deriving Repr, DecidableEq

/-- The override patch of `src/utils/typography.js` lines 6–12: the table
returned by the `overrideThemeStyles` function assigned to the theme. -/
def overrideThemeStyles : OverrideTable :=
  [("a.gatsby-resp-image-link", [("boxShadow", "none")])]

/-- Modelled from the spec: selector-keyed shallow merge of a `StyleOverride`
patch into a base override table, override wins on key collision; performed
by the external typography library when it consumes `overrideThemeStyles`. -/
def mergeOverrides (base patch : OverrideTable) : OverrideTable :=
  base.filter (fun e => (lookupSelector patch e.1).isNone) ++ patch

/-- `src/utils/typography.js` lines 6–12: install the override patch on the
theme before the engine is constructed. -/
def applyOverridePatch (base : ThemeConfig) : ThemeConfig :=
  { base with overrides := mergeOverrides base.overrides overrideThemeStyles }

/-- Modelled from the spec: the fatal startup error for malformed or missing
base theme values. -/
inductive ConfigurationError where
  | missingValue (field : String) : ConfigurationError
  | malformedValue (reason : String) : ConfigurationError
deriving Repr, DecidableEq

/-- Modelled from the spec: the typography engine, a read-only record
computed deterministically from the merged `ThemeConfig`. -/
structure TypographyEngine where
  baseFontSize : ℚ
  baseLineHeight : ℚ
  scaleRatio : ℚ
  overrides : OverrideTable
deriving Repr, DecidableEq

/-- Modelled from the spec: `rhythm(multiplier)` — a deterministic function
of the base line-height (in px-equivalent units: one rhythm unit is one base
line, `baseFontSize * baseLineHeight` px). -/
def TypographyEngine.rhythm (t : TypographyEngine) (m : ℚ) : ℚ :=
  m * (t.baseFontSize * t.baseLineHeight)

/-- The value returned by `scale(step)`. -/
structure ScaleValue where
  fontSize : ℚ
  lineHeight : ℚ
deriving Repr, DecidableEq

/-- Modelled from the spec: `scale(step)` — a deterministic function of the
configured modular scale ratio and the integer step; positive steps scale
up, negative steps scale down (a geometric progression from the base size). -/
def TypographyEngine.scale (t : TypographyEngine) (step : ℤ) : ScaleValue :=
  { fontSize := t.baseFontSize * t.scaleRatio ^ step
    lineHeight := t.baseLineHeight }

/-- Modelled from the spec: the external library's constructor
`new Typography(config)`.  It fails synchronously with a
`ConfigurationError` when a required base value is missing or the base
values are malformed (non-positive metrics, or a scale ratio that would not
scale up on positive steps); otherwise it returns the read-only engine
derived from the config. -/
def Typography.construct (cfg : ThemeConfig) :
    Except ConfigurationError TypographyEngine :=
  match cfg.baseFontSize, cfg.baseLineHeight, cfg.scaleRatio with
  | none, _, _ => .error (.missingValue "baseFontSize")
  | some _, none, _ => .error (.missingValue "baseLineHeight")
  | some _, some _, none => .error (.missingValue "scaleRatio")
  | some fs, some lh, some r =>
    if 0 < fs ∧ 0 < lh ∧ 1 < r then
      .ok { baseFontSize := fs, baseLineHeight := lh, scaleRatio := r
            overrides := cfg.overrides }
    else
      .error (.malformedValue "base values out of range")

/-- The record of bindings exported by the module:
`export const rhythm = typography.rhythm`,
`export const scale = typography.scale`,
`export default typography` (`src/utils/typography.js` lines 21–23). -/
structure ModuleExports where
  rhythm : ℚ → ℚ
  scale : ℤ → ScaleValue
  defaultExport : TypographyEngine

/-- Evaluation of the module `src/utils/typography.js`, parameterised by the
externally supplied base theme and the runtime environment flag
(`process.env.NODE_ENV`).  It applies the override patch, constructs the
engine, invokes `injectStyles` once iff the environment is not
`"production"` (the count of invocations is returned alongside the exports),
and builds the export record.  A `ConfigurationError` aborts evaluation
before any engine or export exists. -/
def moduleEval (base : ThemeConfig) (env : String) :
    Except ConfigurationError (ModuleExports × Nat) :=
  (Typography.construct (applyOverridePatch base)).map fun t =>
    ({ rhythm := t.rhythm, scale := t.scale, defaultExport := t },
     if env ≠ "production" then 1 else 0)

/-- A demonstration base theme used by the concrete witnesses: one unrelated
selector plus a pre-existing entry for the patched selector. -/
def demoBase : ThemeConfig :=
  { baseFontSize := some 18
    baseLineHeight := some (29/20)
    scaleRatio := some (5/4)
    overrides := [("h1", [("color", "#2a2a2a")]),
                  ("a.gatsby-resp-image-link", [("boxShadow", "0 1px 0 0")])] }

/-- The scenario base config of the spec's numerical test:
`{baseFontSize: 16, baseLineHeight: 1.45, scaleRatio: 1.25}` with an empty
override table. -/
def scenarioConfig : ThemeConfig :=
  { baseFontSize := some 16
    baseLineHeight := some (29/20)
    scaleRatio := some (5/4)
    overrides := [] }

/-- The engine that `moduleEval scenarioConfig` constructs. -/
def scenarioEngine : TypographyEngine :=
  { baseFontSize := 16
    baseLineHeight := 29/20
    scaleRatio := 5/4
    overrides := overrideThemeStyles }

/-- The export record that `moduleEval scenarioConfig` produces. -/
def scenarioExports : ModuleExports :=
  { rhythm := scenarioEngine.rhythm
    scale := scenarioEngine.scale
    defaultExport := scenarioEngine }

/-- A base theme missing the required base font size, used to witness the
startup-failure behaviour. -/
def brokenConfig : ThemeConfig :=
  { baseFontSize := none
    baseLineHeight := some (29/20)
    scaleRatio := some (5/4)
    overrides := [] }

theorem lookupSelector_cons (e : String × StyleDecls) (t : OverrideTable)
    (sel : String) :
    lookupSelector (e :: t) sel =
      if e.1 = sel then some e.2 else lookupSelector t sel := by
  by_cases h : e.1 = sel <;> simp [lookupSelector, List.find?_cons, h]

theorem lookupSelector_merge (base patch : OverrideTable) (sel : String) :
    lookupSelector (mergeOverrides base patch) sel =
      match lookupSelector patch sel with
      | some d => some d
      | none => lookupSelector base sel := by
  induction base with
  | nil =>
    have h0 : mergeOverrides [] patch = patch := rfl
    rw [h0]
    cases h : lookupSelector patch sel with
    | some d => simp [h]
    | none => simp [h, lookupSelector]
  | cons e t ih =>
    cases hqe : lookupSelector patch e.1 with
    | none =>
      have hstep : mergeOverrides (e :: t) patch = e :: mergeOverrides t patch := by
        simp [mergeOverrides, List.filter_cons, hqe]
      rw [hstep, lookupSelector_cons]
      by_cases hsel : e.1 = sel
      · subst hsel
        simp [hqe, lookupSelector_cons]
      · rw [if_neg hsel, ih]
        cases hp : lookupSelector patch sel with
        | some d => simp [hp]
        | none => simp [hp, lookupSelector_cons, hsel]
    | some d =>
      have hstep : mergeOverrides (e :: t) patch = mergeOverrides t patch := by
        simp [mergeOverrides, List.filter_cons, hqe]
      rw [hstep, ih]
      by_cases hsel : e.1 = sel
      · subst hsel
        simp [hqe]
      · cases hp : lookupSelector patch sel with
        | some d2 => simp [hp]
        | none => simp [hp, lookupSelector_cons, hsel]

theorem lookupSelector_patch_self (base : OverrideTable) :
    lookupSelector (mergeOverrides base overrideThemeStyles)
        "a.gatsby-resp-image-link" = some [("boxShadow", "none")] := by
  rw [lookupSelector_merge]
  rfl

theorem lookupSelector_patch_other (base : OverrideTable) (sel : String)
    (h : sel ≠ "a.gatsby-resp-image-link") :
    lookupSelector (mergeOverrides base overrideThemeStyles) sel =
      lookupSelector base sel := by
  rw [lookupSelector_merge]
  have hg : ("a.gatsby-resp-image-link" == sel) = false := by
    simp [Ne.symm h]
  have hnone : lookupSelector overrideThemeStyles sel = none := by
    simp [lookupSelector, overrideThemeStyles, List.find?_cons, hg]
  simp [hnone]

/-- **C1.** After the `overrideThemeStyles` patch is merged into the base
theme's override table, the merged table maps `"a.gatsby-resp-image-link"`
to `{boxShadow: "none"}`, and every other selector's entries are exactly
those of the base table: the merge is a scoped shallow merge, not a
wholesale replacement. -/
theorem merge_patch_scoped (base : ThemeConfig) :
    lookupSelector (applyOverridePatch base).overrides
        "a.gatsby-resp-image-link" = some [("boxShadow", "none")] ∧
    ∀ sel : String, sel ≠ "a.gatsby-resp-image-link" →
      lookupSelector (applyOverridePatch base).overrides sel =
        lookupSelector base.overrides sel := by
  refine ⟨lookupSelector_patch_self base.overrides, fun sel h => ?_⟩
  exact lookupSelector_patch_other base.overrides sel h

/-- Witness for C1 at the concrete `demoBase`: the patched selector carries
the override and the unrelated selector `"h1"` is untouched. -/
theorem merge_patch_scoped_witness :
    lookupSelector (applyOverridePatch demoBase).overrides
        "a.gatsby-resp-image-link" = some [("boxShadow", "none")] ∧
    lookupSelector (applyOverridePatch demoBase).overrides "h1" =
      lookupSelector demoBase.overrides "h1" :=
  ⟨(merge_patch_scoped demoBase).1,
   (merge_patch_scoped demoBase).2 "h1" (by decide)⟩

theorem construct_ok_spec {cfg : ThemeConfig} {t : TypographyEngine}
    (h : Typography.construct cfg = .ok t) :
    0 < t.baseFontSize ∧ 0 < t.baseLineHeight ∧ 1 < t.scaleRatio ∧
      t.overrides = cfg.overrides := by
  unfold Typography.construct at h
  split at h
  · exact absurd h (by simp)
  · exact absurd h (by simp)
  · exact absurd h (by simp)
  · split at h
    · rename_i hcond
      obtain ⟨h1, h2, h3⟩ := hcond
      cases h
      exact ⟨h1, h2, h3, rfl⟩
    · exact absurd h (by simp)

theorem moduleEval_ok_elim {base : ThemeConfig} {env : String}
    {ex : ModuleExports} {n : Nat}
    (h : moduleEval base env = .ok (ex, n)) :
    ∃ t, Typography.construct (applyOverridePatch base) = .ok t ∧
      ex.rhythm = t.rhythm ∧ ex.scale = t.scale ∧ ex.defaultExport = t ∧
      n = if env ≠ "production" then 1 else 0 := by
  unfold moduleEval at h
  cases hT : Typography.construct (applyOverridePatch base) with
  | error e => rw [hT] at h; exact absurd h (by simp [Except.map])
  | ok t =>
    rw [hT] at h
    simp only [Except.map, Except.ok.injEq, Prod.mk.injEq] at h
    obtain ⟨h1, h2⟩ := h
    exact ⟨t, rfl, by rw [← h1], by rw [← h1], by rw [← h1], h2.symm⟩

theorem scenarioEval_dev :
    moduleEval scenarioConfig "development" = .ok (scenarioExports, 1) := by
  norm_num [moduleEval, Typography.construct, applyOverridePatch,
            mergeOverrides, scenarioConfig, scenarioExports, scenarioEngine,
            Except.map]
  decide

theorem scenarioEval_prod :
    moduleEval scenarioConfig "production" = .ok (scenarioExports, 0) := by
  norm_num [moduleEval, Typography.construct, applyOverridePatch,
            mergeOverrides, scenarioConfig, scenarioExports, scenarioEngine,
            Except.map]

/-- **C2.** In `"production"` environment mode, module evaluation never
invokes the style-injection side effect: the count of `injectStyles` calls
in any successful run is zero. -/
theorem production_no_injection (base : ThemeConfig) (ex : ModuleExports)
    (n : Nat) (h : moduleEval base "production" = .ok (ex, n)) : n = 0 := by
  obtain ⟨t, hT, -, -, -, hn⟩ := moduleEval_ok_elim h
  simpa using hn

/-- Witness for C2: a concrete production run performs zero injections. -/
theorem production_no_injection_witness :
    moduleEval scenarioConfig "production" = .ok (scenarioExports, 0) ∧
      (0 : Nat) = 0 :=
  ⟨scenarioEval_prod,
   production_no_injection scenarioConfig scenarioExports 0 scenarioEval_prod⟩

/-- **C3.** In any environment mode other than `"production"`, module
evaluation invokes the style-injection side effect exactly once per run. -/
theorem nonproduction_injects_once (base : ThemeConfig) (env : String)
    (ex : ModuleExports) (n : Nat) (henv : env ≠ "production")
    (h : moduleEval base env = .ok (ex, n)) : n = 1 := by
  obtain ⟨t, hT, -, -, -, hn⟩ := moduleEval_ok_elim h
  simpa [henv] using hn

/-- Witness for C3: a concrete `"development"` run injects exactly once. -/
theorem nonproduction_injects_once_witness :
    "development" ≠ "production" ∧
      moduleEval scenarioConfig "development" = .ok (scenarioExports, 1) ∧
      (1 : Nat) = 1 :=
  ⟨by decide, scenarioEval_dev,
   nonproduction_injects_once scenarioConfig "development" scenarioExports 1
     (by decide) scenarioEval_dev⟩

/-- **C4.** A base theme missing a required base value (here the base font
size) makes module evaluation fail synchronously with a
`ConfigurationError`; the error result contains no engine, so no
`TypographyEngine` is ever constructed in such a run. -/
theorem missing_base_value_fails (base : ThemeConfig) (env : String)
    (h : base.baseFontSize = none) :
    moduleEval base env =
      .error (ConfigurationError.missingValue "baseFontSize") := by
  unfold moduleEval Typography.construct applyOverridePatch
  simp [h, Except.map]

/-- Witness for C4 at a concrete config with no base font size. -/
theorem missing_base_value_fails_witness :
    brokenConfig.baseFontSize = none ∧
      moduleEval brokenConfig "development" =
        .error (ConfigurationError.missingValue "baseFontSize") :=
  ⟨rfl, missing_base_value_fails brokenConfig "development" rfl⟩

/-- **C5.** For every valid base theme and the engine constructed from it,
the exported `rhythm` satisfies `rhythm 0 = 0` and is linear:
`rhythm (2*m) = 2 * rhythm m` on the same engine instance. -/
theorem rhythm_zero_and_linear (base : ThemeConfig) (env : String)
    (ex : ModuleExports) (n : Nat)
    (h : moduleEval base env = .ok (ex, n)) (m : ℚ) :
    ex.rhythm 0 = 0 ∧ ex.rhythm (2 * m) = 2 * ex.rhythm m := by
  obtain ⟨t, hT, hr, -, -, -⟩ := moduleEval_ok_elim h
  rw [hr]
  unfold TypographyEngine.rhythm
  constructor <;> ring

/-- Witness for C5 at the scenario run with multiplier `3`. -/
theorem rhythm_zero_and_linear_witness :
    moduleEval scenarioConfig "development" = .ok (scenarioExports, 1) ∧
      (scenarioExports.rhythm 0 = 0 ∧
        scenarioExports.rhythm (2 * 3) = 2 * scenarioExports.rhythm 3) :=
  ⟨scenarioEval_dev,
   rhythm_zero_and_linear scenarioConfig "development" scenarioExports 1
     scenarioEval_dev 3⟩

/-- **C6.** For every pair of integer steps `s1 < s2`, the engine's modular
scale is strictly monotonic: `(scale s1).fontSize < (scale s2).fontSize`. -/
theorem scale_strict_mono (base : ThemeConfig) (env : String)
    (ex : ModuleExports) (n : Nat) (s1 s2 : ℤ)
    (h : moduleEval base env = .ok (ex, n)) (hlt : s1 < s2) :
    (ex.scale s1).fontSize < (ex.scale s2).fontSize := by
  obtain ⟨t, hT, -, hs, -, -⟩ := moduleEval_ok_elim h
  obtain ⟨hfs, -, hratio, -⟩ := construct_ok_spec hT
  rw [hs]
  simp only [TypographyEngine.scale]
  exact mul_lt_mul_of_pos_left (zpow_lt_zpow_right₀ hratio hlt) hfs

/-- Witness for C6 at the scenario run with steps `0 < 1`. -/
theorem scale_strict_mono_witness :
    moduleEval scenarioConfig "development" = .ok (scenarioExports, 1) ∧
      (0 : ℤ) < 1 ∧
      (scenarioExports.scale 0).fontSize < (scenarioExports.scale 1).fontSize :=
  ⟨scenarioEval_dev, by decide,
   scale_strict_mono scenarioConfig "development" scenarioExports 1 0 1
     scenarioEval_dev (by decide)⟩

/-- **C7.** For a fixed base theme, the exported `rhythm` and `scale` are
pure and deterministic: any two runs of module evaluation (under any two
environment flags, i.e. independent of all other state) produce exported
functions that agree on every argument. -/
theorem exports_pure_deterministic (base : ThemeConfig) (env1 env2 : String)
    (ex1 ex2 : ModuleExports) (n1 n2 : Nat)
    (h1 : moduleEval base env1 = .ok (ex1, n1))
    (h2 : moduleEval base env2 = .ok (ex2, n2)) :
    (∀ m, ex1.rhythm m = ex2.rhythm m) ∧ (∀ s, ex1.scale s = ex2.scale s) := by
  obtain ⟨t1, hT1, hr1, hs1, -, -⟩ := moduleEval_ok_elim h1
  obtain ⟨t2, hT2, hr2, hs2, -, -⟩ := moduleEval_ok_elim h2
  rw [hT1] at hT2
  have ht : t1 = t2 := by simpa using hT2
  subst ht
  exact ⟨fun m => by rw [hr1, hr2], fun s => by rw [hs1, hs2]⟩

/-- Witness for C7: a development run and a production run of the scenario
config agree on `rhythm 2`. -/
theorem exports_pure_deterministic_witness :
    moduleEval scenarioConfig "development" = .ok (scenarioExports, 1) ∧
      moduleEval scenarioConfig "production" = .ok (scenarioExports, 0) ∧
      scenarioExports.rhythm 2 = scenarioExports.rhythm 2 :=
  ⟨scenarioEval_dev, scenarioEval_prod,
   (exports_pure_deterministic scenarioConfig "development" "production"
      scenarioExports scenarioExports 1 0 scenarioEval_dev scenarioEval_prod).1 2⟩

/-- **C8.** For the base config `{baseFontSize: 16, baseLineHeight: 1.45,
scaleRatio: 1.25}` with an empty override table, the constructed engine
satisfies `rhythm 1 = 16 * 1.45` (px-equivalent units, exactly) and
`(scale 0).fontSize = 16`. -/
theorem scenario_numeric :
    (moduleEval scenarioConfig "development").map
        (fun p => (p.1.rhythm 1, (p.1.scale 0).fontSize)) =
      .ok ((16 * (145/100 : ℚ), (16 : ℚ))) := by
  rw [scenarioEval_dev]
  simp only [Except.map]
  norm_num [scenarioExports, scenarioEngine, TypographyEngine.rhythm,
            TypographyEngine.scale]

/-- **C9.** The override patch is applied before the engine is constructed:
in every successful run, the default-exported engine's override table is
exactly the patched table, and in particular it already maps
`"a.gatsby-resp-image-link"` to `{boxShadow: "none"}` (nothing after
construction alters the theme — the engine carries the merged table
itself). -/
theorem patch_applied_before_construction (base : ThemeConfig) (env : String)
    (ex : ModuleExports) (n : Nat)
    (h : moduleEval base env = .ok (ex, n)) :
    ex.defaultExport.overrides =
        mergeOverrides base.overrides overrideThemeStyles ∧
      lookupSelector ex.defaultExport.overrides "a.gatsby-resp-image-link" =
        some [("boxShadow", "none")] := by
  obtain ⟨t, hT, -, -, hd, -⟩ := moduleEval_ok_elim h
  obtain ⟨-, -, -, hov⟩ := construct_ok_spec hT
  have hpatch : (applyOverridePatch base).overrides =
      mergeOverrides base.overrides overrideThemeStyles := rfl
  rw [hd, hov, hpatch]
  exact ⟨rfl, lookupSelector_patch_self _⟩

/-- Witness for C9 at the scenario run. -/
theorem patch_applied_before_construction_witness :
    moduleEval scenarioConfig "development" = .ok (scenarioExports, 1) ∧
      (scenarioExports.defaultExport.overrides =
          mergeOverrides scenarioConfig.overrides overrideThemeStyles ∧
        lookupSelector scenarioExports.defaultExport.overrides
            "a.gatsby-resp-image-link" = some [("boxShadow", "none")]) :=
  ⟨scenarioEval_dev,
   patch_applied_before_construction scenarioConfig "development"
     scenarioExports 1 scenarioEval_dev⟩

/-- **C10.** The module's exported `rhythm` and `scale` are exactly the
corresponding members of the single default-exported engine: on every
argument they agree, so all consumers observe one shared engine. -/
theorem exports_are_engine_members (base : ThemeConfig) (env : String)
    (ex : ModuleExports) (n : Nat)
    (h : moduleEval base env = .ok (ex, n)) :
    (∀ x, ex.rhythm x = ex.defaultExport.rhythm x) ∧
      (∀ s, ex.scale s = ex.defaultExport.scale s) := by
  obtain ⟨t, hT, hr, hs, hd, -⟩ := moduleEval_ok_elim h
  exact ⟨fun x => by rw [hr, hd], fun s => by rw [hs, hd]⟩

/-- Witness for C10 at the scenario run, evaluated at `rhythm 5` and
`scale 2`. -/
theorem exports_are_engine_members_witness :
    moduleEval scenarioConfig "development" = .ok (scenarioExports, 1) ∧
      scenarioExports.rhythm 5 = scenarioExports.defaultExport.rhythm 5 ∧
      scenarioExports.scale 2 = scenarioExports.defaultExport.scale 2 :=
  ⟨scenarioEval_dev,
   (exports_are_engine_members scenarioConfig "development" scenarioExports 1
      scenarioEval_dev).1 5,
   (exports_are_engine_members scenarioConfig "development" scenarioExports 1
      scenarioEval_dev).2 2⟩
